import Mathlib

/-!
Shallow embedding of the hotspot recording core (`src/perfrecord.cpp` and
`src/authhelper.cpp`).  The asynchronous Qt signal/slot code is modelled as
pure step functions over an explicit session state: each handler becomes a
function returning the new state together with the list of observable events
(emitted signals and process-management actions) it produces, in order.
-/

namespace Hotspot

/-- Whether the first list is a prefix of the second. -/
def isPrefixOfL : List Char → List Char → Bool
  | [], _ => true
  | _ :: _, [] => false
  | a :: as, b :: bs => a = b && isPrefixOfL as bs

/-- Whether the first list occurs as a contiguous sublist of the second. -/
def isInfixOfL : List Char → List Char → Bool
  | pat, [] => pat.isEmpty
  | pat, c :: cs => isPrefixOfL pat (c :: cs) || isInfixOfL pat cs

/-- Substring containment, modelling `QByteArray::contains` /
`QString::contains`. -/
def containsStr (hay pat : String) : Bool :=
  isInfixOfL pat.toList hay.toList

/-- Index of the last occurrence of a character in a list, if any. -/
def lastIdxOf (c : Char) : List Char → Option Nat
  | [] => none
  | x :: xs =>
    match lastIdxOf c xs with
    | some i => some (i + 1)
    | none => if x = c then some 0 else none

/-- `QFileInfo(p).dir().path()`: the parent directory of a file path
(`"."` when the path has no separator, `"/"` for a file in the root). -/
def dirPath (p : String) : String :=
  match lastIdxOf '/' p.toList with
  | none => "."
  | some 0 => "/"
  | some i => String.mk (p.toList.take i)

/-- The file-system facts the recording code queries (`QFileInfo` calls and
`Util::findLibexecBinary`), abstracted as an environment.  `elevateScript`
is the located path of `elevate_perf_privileges.sh`, empty when not found. -/
structure FS where
  pathExists : String → Bool
  isDir : String → Bool
  isWritable : String → Bool
  size : String → Nat
  elevateScript : String

/-- Observable events of a recording session: the emitted Qt signals
(`recordingFailed`, `recordingFinished`, `recordingOutput`) and the
process-management actions (`kill()` of the previous child, `terminate()`
of the child, `start()` of a new child with program, arguments and working
directory). -/
inductive Event where
  | recordingFailed (msg : String)
  | recordingFinished (path : String)
  | recordingOutput (text : String)
  | procKill
  | procTerminate
  | procSpawn (program : String) (args : List String) (workingDir : String)
  deriving DecidableEq

/-- The child-process handle (`QProcess`): `started` records whether
`start()` was invoked on it, `terminateRequested` whether `terminate()`
was sent to it. -/
structure Proc where
  program : String
  args : List String
  workingDir : String
  started : Bool
  terminateRequested : Bool
  deriving DecidableEq

/-- A freshly constructed, not yet started `QProcess`. -/
def freshProc : Proc :=
  { program := "", args := [], workingDir := "", started := false, terminateRequested := false }

/-- The `PerfRecord` object's state: `m_perfRecordProcess`, `m_outputPath`,
`m_userTerminated`. -/
structure PerfRecordState where
  perfRecordProcess : Option Proc
  outputPath : String
  userTerminated : Bool
  deriving DecidableEq

/-- `EXIT_SUCCESS` on the platform. -/
def EXIT_SUCCESS : Int := 0

/-- The numeric value of the `SIGTERM` signal on the platform. -/
def SIGTERM : Int := 15

/-- `PerfRecord::startRecording(perfOptions, outputPath, recordOptions,
workingDirectory)` (the non-elevated overload, perfrecord.cpp lines
132-199): kills and replaces any previous child process, validates the
output path's parent directory, and on success spawns
`perf record -o <outputPath> <perfOptions> <recordOptions>`. -/
def startRecording (fs : FS) (s : PerfRecordState) (perfOptions : List String)
    (outputPath : String) (recordOptions : List String) (workingDirectory : String) :
    PerfRecordState × List Event :=
  let killEvents : List Event :=
    match s.perfRecordProcess with
    | some _ => [Event.procKill]
    | none => []
  let s := { s with perfRecordProcess := some freshProc }
  let folderPath := dirPath outputPath
  if fs.pathExists folderPath = false then
    (s, killEvents ++ [Event.recordingFailed ("Folder '" ++ folderPath ++ "' does not exist.")])
  else if fs.isDir folderPath = false then
    (s, killEvents ++ [Event.recordingFailed ("'" ++ folderPath ++ "' is not a folder.")])
  else if fs.isWritable folderPath = false then
    (s, killEvents ++ [Event.recordingFailed ("Folder '" ++ folderPath ++ "' is not writable.")])
  else
    let perfCommand := ["record", "-o", outputPath] ++ perfOptions ++ recordOptions
    ({ s with
        outputPath := outputPath,
        perfRecordProcess := some
          { program := "perf", args := perfCommand, workingDir := workingDirectory,
            started := true, terminateRequested := false } },
     killEvents ++ [Event.procSpawn "perf" perfCommand workingDirectory])

/-- `PerfRecord::startRecording(elevatePrivileges, ...)` (perfrecord.cpp
lines 66-130): without elevation it calls the non-elevated overload; with
elevation it fails when the elevation script cannot be located, and
otherwise only sets up the asynchronous elevation job (whose behaviour is
modelled by `percentChanged`, `readSlot` and `pollLoop` below). -/
def startRecordingElevate (fs : FS) (s : PerfRecordState) (elevatePrivileges : Bool)
    (perfOptions : List String) (outputPath : String) (recordOptions : List String)
    (workingDirectory : String) : PerfRecordState × List Event :=
  if elevatePrivileges then
    if fs.elevateScript = "" then
      (s, [Event.recordingFailed "Failed to find `elevate_perf_privileges.sh` script."])
    else
      (s, [])
  else
    startRecording fs s perfOptions outputPath recordOptions workingDirectory

/-- `PerfRecord::record(perfOptions, outputPath, elevatePrivileges, pids)`
(perfrecord.cpp lines 201-212). -/
def record (fs : FS) (s : PerfRecordState) (perfOptions : List String) (outputPath : String)
    (elevatePrivileges : Bool) (pids : List String) : PerfRecordState × List Event :=
  if pids.isEmpty then
    (s, [Event.recordingFailed "Process does not exist."])
  else
    let options := perfOptions ++ ["--pid", String.intercalate "," pids]
    startRecordingElevate fs s elevatePrivileges options outputPath [] ""

/-- The `QProcess::finished` handler connected in `startRecording`
(perfrecord.cpp lines 159-171), as a function of the exit code and the
file system at handler time. -/
def processFinished (fs : FS) (s : PerfRecordState) (exitCode : Int) :
    PerfRecordState × List Event :=
  if (exitCode = EXIT_SUCCESS ∨ (exitCode = SIGTERM ∧ s.userTerminated = true)
        ∨ 0 < fs.size s.outputPath)
      ∧ fs.pathExists s.outputPath = true then
    ({ s with userTerminated := false }, [Event.recordingFinished s.outputPath])
  else
    ({ s with userTerminated := false },
     [Event.recordingFailed
        ("Failed to record perf data, error code " ++ toString exitCode ++ ".")])

/-- The `QProcess::errorOccurred` handler connected in `startRecording`
(perfrecord.cpp lines 173-178); `errorString` is the process's error
message. -/
def processErrorOccurred (s : PerfRecordState) (errorString : String) :
    PerfRecordState × List Event :=
  if s.userTerminated = true then (s, [])
  else (s, [Event.recordingFailed errorString])

/-- `PerfRecord::stopRecording()` (perfrecord.cpp lines 258-264). -/
def stopRecording (s : PerfRecordState) : PerfRecordState × List Event :=
  let s1 := { s with userTerminated := true }
  match s1.perfRecordProcess with
  | some p =>
    ({ s1 with perfRecordProcess := some { p with terminateRequested := true } },
     [Event.procTerminate])
  | none => (s1, [])

/-- The `readSlot` closure of the elevated `startRecording` (perfrecord.cpp
lines 89-104), executed on each tick of the 250ms poll timer; `data` is
what `outputFile->readAll()` returned on this tick. -/
def readSlot (fs : FS) (s : PerfRecordState) (perfOptions : List String) (outputPath : String)
    (recordOptions : List String) (workingDirectory : String) (data : String) :
    PerfRecordState × List Event :=
  if data = "" then
    (s, [])
  else if containsStr data "\nprivileges elevated!\n" then
    let r := startRecording fs s perfOptions outputPath recordOptions workingDirectory
    (r.1, [Event.recordingOutput data, Event.recordingOutput "\n"] ++ r.2)
  else if containsStr data "Error:" then
    (s, [Event.recordingFailed ("Failed to elevate privileges: " ++ data)])
  else
    (s, [Event.recordingOutput data])

/-- The repeating 250ms poll timer: `readSlot` runs on every tick for as
long as the timer lives, and nothing in the code stops the timer, so every
chunk of the tick sequence is processed. -/
def pollLoop (fs : FS) (s : PerfRecordState) (perfOptions : List String) (outputPath : String)
    (recordOptions : List String) (workingDirectory : String) :
    List String → PerfRecordState × List Event
  | [] => (s, [])
  | d :: rest =>
    let r := readSlot fs s perfOptions outputPath recordOptions workingDirectory d
    let r2 := pollLoop fs r.1 perfOptions outputPath recordOptions workingDirectory rest
    (r2.1, r.2 ++ r2.2)

/-- Modelled from the spec's words (for comparison with `pollLoop`): the
spec asserts that polling stops once an elevation-success or
elevation-error marker is observed, so chunks after the first
marker-containing chunk are never polled. -/
def pollLoopStopAtMarker (fs : FS) (s : PerfRecordState) (perfOptions : List String)
    (outputPath : String) (recordOptions : List String) (workingDirectory : String) :
    List String → PerfRecordState × List Event
  | [] => (s, [])
  | d :: rest =>
    let r := readSlot fs s perfOptions outputPath recordOptions workingDirectory d
    if containsStr d "\nprivileges elevated!\n" ∨ (containsStr d "Error:" ∧ d ≠ "") then
      r
    else
      let r2 := pollLoopStopAtMarker fs r.1 perfOptions outputPath recordOptions workingDirectory rest
      (r2.1, r.2 ++ r2.2)

/-- The `KAuth::ExecuteJob::percentChanged` handler (perfrecord.cpp lines
116-124): returns the emitted events and, when polling begins, the poll
timer interval in milliseconds. -/
def percentChanged (step : Nat) : List Event × Option Nat :=
  if step = 1 then
    ([Event.recordingFailed "Failed to elevate privileges."], none)
  else if step = 2 then
    ([], some 250)
  else
    ([], none)

/-- The `QProcess` signals the elevation helper reacts to. -/
inductive ProcSignal where
  | errorOccurred
  | started
  | finished
  deriving DecidableEq

/-- The progress step `AuthHelper::elevate` reports for a process signal
(authhelper.cpp lines 22-26): `errorOccurred` reports step 1 (unless the
watchdog already disarmed error reporting), `started` reports step 2. -/
def authProgressStep (errorDisarmed : Bool) : ProcSignal → Option Nat
  | ProcSignal.errorOccurred => if errorDisarmed then none else some 1
  | ProcSignal.started => some 2
  | ProcSignal.finished => none

/-- The reply of a KAuth action. -/
inductive ActionReply where
  | success
  | error
  deriving DecidableEq

/-- Behaviour of the spawned elevation script process: whether `start()`
succeeds, and the time (ms) at which the process exits on its own,
`none` when it runs until terminated. -/
structure ScriptRun where
  startsOk : Bool
  selfFinishTime : Option Nat
  deriving DecidableEq

/-- Whether the 1-second single-shot watchdog of `AuthHelper::elevate`
fires, i.e. the script process has not finished when 1000ms elapse. -/
def watchdogFires (p : ScriptRun) : Bool :=
  match p.selfFinishTime with
  | some t => decide (1000 ≤ t)
  | none => true

/-- The observable outcome of one `AuthHelper::elevate` call. -/
structure ElevateResult where
  progressSteps : List Nat
  watchdogDelayMs : Nat
  watchdogFired : Bool
  errorReportingDisarmed : Bool
  terminateSent : Bool
  reply : ActionReply
  deriving DecidableEq

/-- `AuthHelper::elevate` (authhelper.cpp lines 16-38): reports step 1 on a
start error and step 2 on start; arms a 1000ms single-shot watchdog that,
when it fires, disconnects the error handler and terminates the script
process; always returns `SuccessReply`. -/
def elevate (p : ScriptRun) : ElevateResult :=
  { progressSteps := if p.startsOk then [2] else [1]
    watchdogDelayMs := 1000
    watchdogFired := watchdogFires p
    errorReportingDisarmed := watchdogFires p
    terminateSent := watchdogFires p
    reply := ActionReply.success }

/-- `perfRecordHelp` (perfrecord.cpp lines 307-318) as a function of the
captured `perf record --help` output: falls back to a literal holding both
flags when the output is empty. -/
def perfRecordHelp (rawHelp : String) : String :=
  if rawHelp = "" then "--sample-cpu --switch-events" else rawHelp

/-- `PerfRecord::canSampleCpu` (perfrecord.cpp lines 336-339). -/
def canSampleCpu (rawHelp : String) : Bool :=
  containsStr (perfRecordHelp rawHelp) "--sample-cpu"

/-- `PerfRecord::canSwitchEvents` (perfrecord.cpp lines 341-344). -/
def canSwitchEvents (rawHelp : String) : Bool :=
  containsStr (perfRecordHelp rawHelp) "--switch-events"

/-- An environment in which no path exists and the elevation script is not
found. -/
def fsNone : FS :=
  { pathExists := fun _ => false, isDir := fun _ => false, isWritable := fun _ => false,
    size := fun _ => 0, elevateScript := "" }

/-- An environment in which every path exists, is a writable directory, has
size 1 and the elevation script is found. -/
def fsAll : FS :=
  { pathExists := fun _ => true, isDir := fun _ => true, isWritable := fun _ => true,
    size := fun _ => 1, elevateScript := "/usr/libexec/elevate_perf_privileges.sh" }

/-- A session state with a running child process. -/
def sRunning : PerfRecordState :=
  { perfRecordProcess := some
      { program := "perf", args := ["record", "-o", "/tmp/old.data"], workingDir := "",
        started := true, terminateRequested := false },
    outputPath := "/tmp/old.data", userTerminated := false }

/-- The initial session state: no child process yet. -/
def sInit : PerfRecordState :=
  { perfRecordProcess := none, outputPath := "", userTerminated := false }

/-- Helper: `startRecording` never changes the `m_userTerminated` flag. -/
theorem startRecording_preserves_userTerminated (fs : FS) (s : PerfRecordState)
    (opts : List String) (path : String) (ropts : List String) (wd : String) :
    (startRecording fs s opts path ropts wd).1.userTerminated = s.userTerminated := by
  unfold startRecording
  by_cases h1 : fs.pathExists (dirPath path) = false
  · simp [h1]
  · by_cases h2 : fs.isDir (dirPath path) = false
    · simp [h1, h2]
    · by_cases h3 : fs.isWritable (dirPath path) = false
      · simp [h1, h2, h3]
      · simp [h1, h2, h3]

/-- C1: on child-process exit the session emits `finished(outputPath)` iff
the output file exists and (the exit code is the platform success code, or
it is the termination-signal value during a user-requested stop, or the
output file has non-zero size); in every other case it emits `failed` with
a message surfacing the exit code. -/
theorem processFinished_success_iff (fs : FS) (s : PerfRecordState) (ec : Int) :
    ((processFinished fs s ec).2 = [Event.recordingFinished s.outputPath] ↔
      fs.pathExists s.outputPath = true ∧
        (ec = EXIT_SUCCESS ∨ (ec = SIGTERM ∧ s.userTerminated = true) ∨ 0 < fs.size s.outputPath))
    ∧ ((processFinished fs s ec).2 = [Event.recordingFinished s.outputPath] ∨
      (processFinished fs s ec).2 =
        [Event.recordingFailed
          ("Failed to record perf data, error code " ++ toString ec ++ ".")]) := by
  by_cases h :
      (ec = EXIT_SUCCESS ∨ (ec = SIGTERM ∧ s.userTerminated = true) ∨ 0 < fs.size s.outputPath)
        ∧ fs.pathExists s.outputPath = true
  · simp only [processFinished, if_pos h]
    exact ⟨⟨fun _ => ⟨h.2, h.1⟩, fun _ => trivial⟩, Or.inl trivial⟩
  · simp only [processFinished, if_neg h]
    refine ⟨⟨fun heq => ?_, fun hr => absurd ⟨hr.2, hr.1⟩ h⟩, Or.inr trivial⟩
    simp at heq

/-- C2 (counterexample): a `record` request whose output path's parent
directory does not exist emits `failed(reason)` but is not side-effect
free: it kills the previously running child process (the `procKill`
action) and replaces the process handle. -/
theorem record_validation_kills_previous :
    (record fsNone sRunning [] "/nope/out.data" false ["1234"]).2 =
        [Event.procKill, Event.recordingFailed "Folder '/nope' does not exist."]
      ∧ (record fsNone sRunning [] "/nope/out.data" false ["1234"]).1.perfRecordProcess ≠
          sRunning.perfRecordProcess := by decide

/-- C2 (amended): a request with an empty PID list emits `failed` and has
no side effects at all; a request whose output path's parent directory
fails validation emits `failed(reason)` and spawns no new process, though
it does first kill and replace any previously running child. -/
theorem record_precondition_failures (fs : FS) (s : PerfRecordState) (opts : List String)
    (path : String) (el : Bool) (ropts : List String) (wd : String) :
    record fs s opts path el [] = (s, [Event.recordingFailed "Process does not exist."])
    ∧ ((fs.pathExists (dirPath path) = false ∨ fs.isDir (dirPath path) = false
          ∨ fs.isWritable (dirPath path) = false) →
        (∃ m, Event.recordingFailed m ∈ (startRecording fs s opts path ropts wd).2)
        ∧ ∀ pr a w, Event.procSpawn pr a w ∉ (startRecording fs s opts path ropts wd).2) := by
  refine ⟨rfl, fun h => ?_⟩
  unfold startRecording
  by_cases h1 : fs.pathExists (dirPath path) = false
  · cases hp : s.perfRecordProcess <;> simp [h1]
  · by_cases h2 : fs.isDir (dirPath path) = false
    · cases hp : s.perfRecordProcess <;> simp [h1, h2]
    · by_cases h3 : fs.isWritable (dirPath path) = false
      · cases hp : s.perfRecordProcess <;> simp [h1, h2, h3]
      · rcases h with h | h | h
        · exact absurd h h1
        · exact absurd h h2
        · exact absurd h h3

/-- C2 (witness for the amended claim): concrete instances of the empty-PID
case and of the no-spawn consequence of a failed directory validation. -/
theorem record_precondition_failures_witness :
    record fsAll sInit [] "/tmp/out.data" false [] =
        (sInit, [Event.recordingFailed "Process does not exist."])
    ∧ Event.procSpawn "perf" ["record", "-o", "/nope/out.data"] "" ∉
        (startRecording fsNone sInit [] "/nope/out.data" [] "").2 :=
  ⟨(record_precondition_failures fsAll sInit [] "/tmp/out.data" false [] "").1,
   ((record_precondition_failures fsNone sInit [] "/nope/out.data" false [] "").2
      (Or.inl (by decide))).2 "perf" ["record", "-o", "/nope/out.data"] ""⟩

/-- C3 (counterexample): after a poll observes the elevation-error marker,
the code polls again — a later non-empty chunk is processed and produces a
second failure event, while the spec's stop-at-marker behaviour
(`pollLoopStopAtMarker`) would produce only the first. -/
theorem pollLoop_continues_after_marker :
    (pollLoop fsNone sInit [] "/o" [] "" ["Error: a", "Error: b"]).2 =
        [Event.recordingFailed "Failed to elevate privileges: Error: a",
         Event.recordingFailed "Failed to elevate privileges: Error: b"]
      ∧ (pollLoopStopAtMarker fsNone sInit [] "/o" [] "" ["Error: a", "Error: b"]).2 =
        [Event.recordingFailed "Failed to elevate privileges: Error: a"] := by decide

/-- C3 (amended): observing a success or error marker does not stop the
poll timer — every subsequent tick still runs the read handler — but
subsequent ticks that read empty content emit nothing and leave the state
unchanged. -/
theorem pollLoop_keeps_polling (fs : FS) (s : PerfRecordState) (opts : List String)
    (path : String) (ropts : List String) (wd : String) (d : String) (rest : List String) :
    (pollLoop fs s opts path ropts wd (d :: rest)).2 =
      (readSlot fs s opts path ropts wd d).2 ++
        (pollLoop fs (readSlot fs s opts path ropts wd d).1 opts path ropts wd rest).2
    ∧ ∀ n, pollLoop fs s opts path ropts wd (d :: List.replicate n "") =
        readSlot fs s opts path ropts wd d := by
  have hE : ∀ (s' : PerfRecordState) (n : Nat),
      pollLoop fs s' opts path ropts wd (List.replicate n "") = (s', []) := by
    intro s' n
    induction n generalizing s' with
    | zero => rfl
    | succ k ih => simp [List.replicate, pollLoop, readSlot, ih]
  refine ⟨rfl, fun n => ?_⟩
  simp [pollLoop, hE]

/-- C4: when a poll reads content containing the success marker, the real
profiler is spawned exactly once with the original request parameters
(perf options, output path, record options, working directory), and the
polled content is forwarded as session output before the spawn. -/
theorem readSlot_success_starts_once (fs : FS) (s : PerfRecordState) (opts : List String)
    (path : String) (ropts : List String) (wd : String) (data : String)
    (hm : containsStr data "\nprivileges elevated!\n" = true)
    (hnone : s.perfRecordProcess = none)
    (h1 : fs.pathExists (dirPath path) = true) (h2 : fs.isDir (dirPath path) = true)
    (h3 : fs.isWritable (dirPath path) = true) :
    readSlot fs s opts path ropts wd data =
      ({ perfRecordProcess := some
            { program := "perf", args := ["record", "-o", path] ++ opts ++ ropts,
              workingDir := wd, started := true, terminateRequested := false },
         outputPath := path, userTerminated := s.userTerminated },
       [Event.recordingOutput data, Event.recordingOutput "\n",
        Event.procSpawn "perf" (["record", "-o", path] ++ opts ++ ropts) wd]) := by
  have hne : ¬(data = "") := by
    intro h
    subst h
    exact absurd hm (by decide)
  unfold readSlot
  rw [if_neg hne, if_pos hm]
  unfold startRecording
  simp [hnone, h1, h2, h3]

/-- C4 (witness): the success marker read in a fresh session with a valid
output directory. -/
theorem readSlot_success_starts_once_witness :
    readSlot fsAll sInit ["-F", "99"] "/tmp/out.data" [] "" "\nprivileges elevated!\n" =
      ({ perfRecordProcess := some
            { program := "perf", args := ["record", "-o", "/tmp/out.data", "-F", "99"],
              workingDir := "", started := true, terminateRequested := false },
         outputPath := "/tmp/out.data", userTerminated := false },
       [Event.recordingOutput "\nprivileges elevated!\n", Event.recordingOutput "\n",
        Event.procSpawn "perf" ["record", "-o", "/tmp/out.data", "-F", "99"] ""]) :=
  readSlot_success_starts_once fsAll sInit ["-F", "99"] "/tmp/out.data" [] ""
    "\nprivileges elevated!\n" (by decide) rfl (by decide) (by decide) (by decide)

/-- C5: the helper reports progress step 1 exactly on the process-error
signal and step 2 exactly on the process-started signal; on step 1 the
caller emits a failure event (and nothing else — in particular it spawns
nothing), on step 2 it starts the 250ms poll timer. -/
theorem elevation_progress_steps (sig : ProcSignal) (d : Bool) :
    (authProgressStep false sig = some 1 ↔ sig = ProcSignal.errorOccurred)
    ∧ (authProgressStep d sig = some 2 ↔ sig = ProcSignal.started)
    ∧ percentChanged 1 = ([Event.recordingFailed "Failed to elevate privileges."], none)
    ∧ percentChanged 2 = ([], some 250) := by
  cases sig <;> cases d <;> decide

/-- C6: the privileged elevate action always returns the generic success
reply; its watchdog is armed at a fixed 1000ms, and when it fires it
disarms error reporting and terminates the spawned script process; a
script that never finishes on its own always trips the watchdog. -/
theorem elevate_always_returns_success (p : ScriptRun) :
    (elevate p).reply = ActionReply.success
    ∧ (elevate p).watchdogDelayMs = 1000
    ∧ (elevate p).errorReportingDisarmed = watchdogFires p
    ∧ (elevate p).terminateSent = watchdogFires p
    ∧ watchdogFires { startsOk := p.startsOk, selfFinishTime := none } = true :=
  ⟨rfl, rfl, rfl, rfl, rfl⟩

/-- C7: `stopRecording` is idempotent — a second call leaves the state and
the produced actions exactly as the first — and a `stopRecording` followed
by child exit with the terminate-signal exit code while the output file
exists yields `finished`, not a failure. -/
theorem stopRecording_idempotent_sigterm (s : PerfRecordState) (fs : FS)
    (h : fs.pathExists s.outputPath = true) :
    (stopRecording (stopRecording s).1).1 = (stopRecording s).1
    ∧ (stopRecording (stopRecording s).1).2 = (stopRecording s).2
    ∧ (processFinished fs (stopRecording s).1 SIGTERM).2 =
        [Event.recordingFinished s.outputPath] := by
  refine ⟨?_, ?_, ?_⟩ <;> cases hp : s.perfRecordProcess <;>
    simp [stopRecording, hp, processFinished, SIGTERM, EXIT_SUCCESS, h]

/-- C7 (witness): stop of a running session, then exit with code 15 while
the output file exists. -/
theorem stopRecording_idempotent_sigterm_witness :
    (processFinished fsAll (stopRecording sRunning).1 SIGTERM).2 =
      [Event.recordingFinished "/tmp/old.data"] :=
  (stopRecording_idempotent_sigterm sRunning fsAll (by decide)).2.2

/-- C8: the request `record(["-F","99"], "/tmp/out.data", false, ["1234"])`
spawns exactly `perf record -o /tmp/out.data -F 99 --pid 1234`, and on
exit code 0 with the output file existing the session emits
`finished("/tmp/out.data")`. -/
theorem record_pids_scenario (fs fs2 : FS) (s : PerfRecordState)
    (hnone : s.perfRecordProcess = none)
    (h1 : fs.pathExists "/tmp" = true) (h2 : fs.isDir "/tmp" = true)
    (h3 : fs.isWritable "/tmp" = true)
    (hout : fs2.pathExists "/tmp/out.data" = true) :
    (record fs s ["-F", "99"] "/tmp/out.data" false ["1234"]).2 =
        [Event.procSpawn "perf"
          ["record", "-o", "/tmp/out.data", "-F", "99", "--pid", "1234"] ""]
    ∧ (processFinished fs2 (record fs s ["-F", "99"] "/tmp/out.data" false ["1234"]).1 0).2 =
        [Event.recordingFinished "/tmp/out.data"] := by
  have hd : dirPath "/tmp/out.data" = "/tmp" := by decide
  have hj : String.intercalate "," ["1234"] = "1234" := rfl
  simp [record, startRecordingElevate, startRecording, hnone, hd, hj, h1, h2, h3,
    processFinished, hout, EXIT_SUCCESS]

/-- C8 (witness): the scenario in an environment where `/tmp` is a
writable directory and `/tmp/out.data` exists after the run. -/
theorem record_pids_scenario_witness :
    (record fsAll sInit ["-F", "99"] "/tmp/out.data" false ["1234"]).2 =
        [Event.procSpawn "perf"
          ["record", "-o", "/tmp/out.data", "-F", "99", "--pid", "1234"] ""]
    ∧ (processFinished fsAll (record fsAll sInit ["-F", "99"] "/tmp/out.data" false ["1234"]).1 0).2 =
        [Event.recordingFinished "/tmp/out.data"] :=
  record_pids_scenario fsAll fsAll sInit rfl (by decide) (by decide) (by decide) (by decide)

/-- C9: with empty `record --help` output both capability queries report
supported; with non-empty output each reports exactly whether its flag
substring occurs in the help text. -/
theorem capability_fallback (h : String) (hne : h ≠ "") :
    canSampleCpu "" = true ∧ canSwitchEvents "" = true
    ∧ canSampleCpu h = containsStr h "--sample-cpu"
    ∧ canSwitchEvents h = containsStr h "--switch-events" := by
  refine ⟨by decide, by decide, ?_, ?_⟩ <;>
    simp [canSampleCpu, canSwitchEvents, perfRecordHelp, hne]

/-- C9 (witness): the non-empty case at a concrete help text. -/
theorem capability_fallback_witness :
    canSampleCpu "" = true ∧ canSwitchEvents "" = true
    ∧ canSampleCpu "x" = containsStr "x" "--sample-cpu"
    ∧ canSwitchEvents "x" = containsStr "x" "--switch-events" :=
  capability_fallback "x" (by decide)

/-- C10: `stopRecording` with no child process emits nothing and sets the
user-requested-termination flag; the flag survives the next
`startRecording`, so a spawn failure of that next recording is suppressed
(no failure event), and only a process-finished event resets the flag to
false. -/
theorem stop_without_process_suppresses_spawn_failure (s : PerfRecordState)
    (hnone : s.perfRecordProcess = none) :
    (stopRecording s).2 = []
    ∧ (stopRecording s).1.userTerminated = true
    ∧ (∀ (fs : FS) (opts ropts : List String) (path wd errMsg : String),
        (processErrorOccurred (startRecording fs (stopRecording s).1 opts path ropts wd).1
            errMsg).2 = [])
    ∧ (∀ (fs : FS) (ec : Int),
        (processFinished fs (stopRecording s).1 ec).1.userTerminated = false) := by
  refine ⟨?_, ?_, ?_, ?_⟩
  · simp [stopRecording, hnone]
  · simp [stopRecording, hnone]
  · intro fs opts ropts path wd errMsg
    have hu : (startRecording fs (stopRecording s).1 opts path ropts wd).1.userTerminated = true := by
      rw [startRecording_preserves_userTerminated]
      simp [stopRecording, hnone]
    simp [processErrorOccurred, hu]
  · intro fs ec
    unfold processFinished
    split <;> rfl

/-- C10 (witness): stop with no process, then a spawn failure of the next
recording in a valid environment produces no failure event. -/
theorem stop_without_process_suppresses_spawn_failure_witness :
    (stopRecording sInit).2 = []
    ∧ (processErrorOccurred
        (startRecording fsAll (stopRecording sInit).1 [] "/tmp/out.data" [] "").1
        "Process crashed").2 = [] :=
  ⟨(stop_without_process_suppresses_spawn_failure sInit rfl).1,
   (stop_without_process_suppresses_spawn_failure sInit rfl).2.2.1 fsAll [] [] "/tmp/out.data" ""
     "Process crashed"⟩

end Hotspot
